import Mathlib

/-! Shallow embedding of the FSD cost calculator (src/app.py).

The pipeline in the source is: fixed per-program composition model →
normalized channel ratios → filter historical records with Cost > 1 →
per-program aggregation of cost, weight and estimated channel weights →
backsolve per-pound costs (grid search, closed forms, or none) →
fillna guardrails → per-scenario price lookup → delivery cost formula.

Numbers are modelled as rationals; a pandas NaN cell is `none`, and the
IndexError raised by `.iloc[0]` on an empty selection is the `none` result
of the lookup function. -/

/-- FIXED_COST_PER_LB constant (app.py line 12). -/
def FIXED_COST_PER_LB : ℚ := 13044792 / 17562606

/-- TRANSPORT_COST_PER_LB_PER_MILE constant (app.py line 13). -/
def TRANSPORT_COST_PER_LB_PER_MILE : ℚ := 1 / 100

/-- DONATED_COST constant (app.py line 14). -/
def DONATED_COST : ℚ := 4 / 100

/-- DEFAULT_PURCHASED_COST_PER_LB guardrail (app.py line 17). -/
def DEFAULT_PURCHASED_COST_PER_LB : ℚ := 1

/-- DEFAULT_PRODUCE_COST_PER_LB guardrail (app.py line 18). -/
def DEFAULT_PRODUCE_COST_PER_LB : ℚ := 3 / 4

/-- One entry of lbs_per_hh_model: per-household pounds per channel; `none`
models a channel absent from a program's composition. -/
structure LbsPerHH where
  produce : Option ℚ
  purchased : Option ℚ
  donated : Option ℚ
deriving DecidableEq

/-- lbs_per_hh_model (app.py lines 24-30). -/
def lbs_per_hh_model : List (String × LbsPerHH) :=
  [("AGENCY", ⟨some 16, some 5, some 2⟩),
   ("BP", ⟨some 4, some 4, some 4⟩),
   ("MP", ⟨some 16, some 5, some 2⟩),
   ("PP", ⟨some 24, some 0, some 0⟩),
   ("SP", ⟨some 16, some 5, some 2⟩)]

/-- One entry of program_food_ratios. -/
structure FoodRatios where
  produce_ratio : ℚ
  purchased_ratio : ℚ
  donated_ratio : ℚ
deriving DecidableEq

/-- `total = sum(v for v in values.values() if v is not None)` (app.py line 35):
an absent channel contributes nothing to the total. -/
def totalOf (v : LbsPerHH) : ℚ :=
  v.produce.getD 0 + v.purchased.getD 0 + v.donated.getD 0

/-- Ratio computation for one program (app.py lines 36-40):
`(values[ch] or 0) / total if total else 0` for each channel. -/
def ratiosOfValues (v : LbsPerHH) : FoodRatios :=
  if totalOf v = 0 then ⟨0, 0, 0⟩
  else ⟨v.produce.getD 0 / totalOf v,
        v.purchased.getD 0 / totalOf v,
        v.donated.getD 0 / totalOf v⟩

/-- `program_food_ratios.get(prog, {}).get(channel_ratio, 0)` (app.py
lines 33-40 and 46-48): a program missing from the model gets all-zero
ratios. -/
def program_food_ratios (prog : String) : FoodRatios :=
  match lbs_per_hh_model.find? (fun pv => pv.1 == prog) with
  | some pv => ratiosOfValues pv.2
  | none => ⟨0, 0, 0⟩

/-- One row of the historical quarterly data: PROGRAM, Cost, Weight. -/
structure HistoricalRecord where
  PROGRAM : String
  Cost : ℚ
  Weight : ℚ
deriving DecidableEq

/-- `quarter_df[quarter_df['Cost'] > 1]` (app.py line 43). -/
def filteredRecords (rs : List HistoricalRecord) : List HistoricalRecord :=
  rs.filter (fun r => r.Cost > 1)

/-- One row of program_agg (app.py lines 55-61). -/
structure ProgramAgg where
  PROGRAM : String
  Cost : ℚ
  Weight : ℚ
  Estimated_Produce_Weight : ℚ
  Estimated_Purchased_Weight : ℚ
  Estimated_Donated_Weight : ℚ
deriving DecidableEq

/-- Group-by key collection: the distinct PROGRAM values of the rows. -/
def uniqueProgs (rs : List HistoricalRecord) : List String :=
  rs.foldl (fun acc r => if r.PROGRAM ∈ acc then acc else acc ++ [r.PROGRAM]) []

/-- Sum of Cost, Weight and the estimated channel weights (`Weight × ratio`,
app.py lines 44-51) over the rows of one program (app.py lines 55-61). -/
def aggFor (rows : List HistoricalRecord) (prog : String) : ProgramAgg :=
  let mine := rows.filter (fun r => r.PROGRAM == prog)
  { PROGRAM := prog
    Cost := (mine.map (fun r => r.Cost)).sum
    Weight := (mine.map (fun r => r.Weight)).sum
    Estimated_Produce_Weight :=
      (mine.map (fun r => r.Weight * (program_food_ratios r.PROGRAM).produce_ratio)).sum
    Estimated_Purchased_Weight :=
      (mine.map (fun r => r.Weight * (program_food_ratios r.PROGRAM).purchased_ratio)).sum
    Estimated_Donated_Weight :=
      (mine.map (fun r => r.Weight * (program_food_ratios r.PROGRAM).donated_ratio)).sum }

/-- program_agg: one aggregate row per program present in the filtered
data (app.py lines 43-61). -/
def program_agg (rs : List HistoricalRecord) : List ProgramAgg :=
  let fs := filteredRecords rs
  (uniqueProgs fs).map (aggFor fs)

/-- `blended_cost = total_cost / total_weight if total_weight else 0`
(app.py line 71). -/
def blended_cost_of (a : ProgramAgg) : ℚ :=
  if a.Weight ≠ 0 then a.Cost / a.Weight else 0

/-- `rprod = prod_wt / total_weight if total_weight else 0` (app.py line 72). -/
def rprod_of (a : ProgramAgg) : ℚ :=
  if a.Weight ≠ 0 then a.Estimated_Produce_Weight / a.Weight else 0

/-- `rpurch = purch_wt / total_weight if total_weight else 0` (app.py line 73). -/
def rpurch_of (a : ProgramAgg) : ℚ :=
  if a.Weight ≠ 0 then a.Estimated_Purchased_Weight / a.Weight else 0

/-- `rdon = don_wt / total_weight if total_weight else 0` (app.py line 74). -/
def rdon_of (a : ProgramAgg) : ℚ :=
  if a.Weight ≠ 0 then a.Estimated_Donated_Weight / a.Weight else 0

/-- `candidate_ys = np.linspace(0.5, 1.2, 71)` (app.py line 78): 71 evenly
spaced points from 1/2 to 6/5 inclusive, step (6/5 - 1/2)/70. -/
def candidate_ys : List ℚ :=
  (List.range 71).map (fun i : ℕ => 1 / 2 + (i : ℚ) * ((6 / 5 - 1 / 2) / 70))

/-- `candidate_x = (blended_cost - rpurch*candidate_y - rdon*DONATED_COST) / rprod`
(app.py line 81). -/
def candidate_x_of (blended_cost rprod rpurch rdon candidate_y : ℚ) : ℚ :=
  (blended_cost - rpurch * candidate_y - rdon * DONATED_COST) / rprod

/-- `error = abs(rprod*candidate_x + rpurch*candidate_y + rdon*DONATED_COST
- blended_cost)` with candidate_x recomputed from the blended equation
(app.py lines 81-83). -/
def candidate_error (blended_cost rprod rpurch rdon candidate_y : ℚ) : ℚ :=
  |rprod * candidate_x_of blended_cost rprod rpurch rdon candidate_y +
    rpurch * candidate_y + rdon * DONATED_COST - blended_cost|

/-- One iteration of the grid-search loop (app.py lines 80-86). The state is
`none` before the first iteration (best_error = inf, x = y = None) and
`some (best_error, x, y)` afterwards; the update fires on strict `<`. -/
def gridStep (blended_cost rprod rpurch rdon : ℚ)
    (best : Option (ℚ × ℚ × ℚ)) (candidate_y : ℚ) : Option (ℚ × ℚ × ℚ) :=
  let error := candidate_error blended_cost rprod rpurch rdon candidate_y
  let cx := candidate_x_of blended_cost rprod rpurch rdon candidate_y
  match best with
  | none => some (error, cx, candidate_y)
  | some (best_error, bx, by0) =>
    if error < best_error then some (error, cx, candidate_y)
    else some (best_error, bx, by0)

/-- The full grid search over candidate_ys (app.py lines 78-86). -/
def gridSearch (blended_cost rprod rpurch rdon : ℚ) : Option (ℚ × ℚ × ℚ) :=
  candidate_ys.foldl (gridStep blended_cost rprod rpurch rdon) none

/-- One row of cost_estimates (app.py lines 93-99); `none` is a Python None
(NaN once inside the DataFrame). -/
structure CostEstimateRow where
  PROGRAM : String
  estimated_produce_cost_per_lb : Option ℚ
  estimated_purchased_cost_per_lb : Option ℚ
deriving DecidableEq

/-- The backsolve case analysis for one aggregate row (app.py lines 65-97). -/
def backsolve (a : ProgramAgg) : CostEstimateRow :=
  if a.PROGRAM ≠ "BP" ∧ rprod_of a > 0 ∧ rpurch_of a > 0 then
    match gridSearch (blended_cost_of a) (rprod_of a) (rpurch_of a) (rdon_of a) with
    | some (_, xv, yv) => ⟨a.PROGRAM, some xv, some yv⟩
    | none => ⟨a.PROGRAM, none, none⟩
  else if rpurch_of a > 0 ∧ rprod_of a = 0 then
    ⟨a.PROGRAM, none,
      some (max (1 / 2) (min (6 / 5)
        ((blended_cost_of a - rdon_of a * DONATED_COST) / rpurch_of a)))⟩
  else if rprod_of a > 0 ∧ rpurch_of a = 0 then
    ⟨a.PROGRAM, some ((blended_cost_of a - rdon_of a * DONATED_COST) / rprod_of a), none⟩
  else ⟨a.PROGRAM, none, none⟩

/-- The fillna guardrails (app.py lines 102-103): every NaN produce cost
becomes 0.75 and every NaN purchased cost becomes 1.00, so after this step
no cell of either column is NaN. -/
def fillnaRow (row : CostEstimateRow) : CostEstimateRow :=
  ⟨row.PROGRAM,
   some (row.estimated_produce_cost_per_lb.getD DEFAULT_PRODUCE_COST_PER_LB),
   some (row.estimated_purchased_cost_per_lb.getD DEFAULT_PURCHASED_COST_PER_LB)⟩

/-- cost_estimates after the guardrails (app.py lines 64-103). -/
def cost_estimates (rs : List HistoricalRecord) : List CostEstimateRow :=
  ((program_agg rs).map backsolve).map fillnaRow

/-- The price lookup performed on form submission (app.py lines 122-140).
The outer `none` models the IndexError that
`program_agg[program_agg['PROGRAM'] == program].iloc[0]` (line 123) raises
when the program has no aggregate row; that line runs before the
`match.empty` test, so the default branch of lines 125-127 can only be
reached if an aggregate row exists. -/
def lookupPrices (rs : List HistoricalRecord) (program : String) :
    Option (Option ℚ × Option ℚ) :=
  let matchRows := (cost_estimates rs).filter (fun r => r.PROGRAM == program)
  match (program_agg rs).find? (fun r => r.PROGRAM == program) with
  | none => none
  | some agg_row =>
    match matchRows with
    | [] => some (some DEFAULT_PRODUCE_COST_PER_LB, some DEFAULT_PURCHASED_COST_PER_LB)
    | row :: _ =>
      if program = "BP" then
        let purchased_cost : ℚ := 127 / 100
        let produce_cost : ℚ :=
          match row.estimated_produce_cost_per_lb with
          | some v => v
          | none =>
            let blended := if agg_row.Weight > 0 then agg_row.Cost / agg_row.Weight else 0
            let r : ℚ := 1 / 3
            (blended - (r * (127 / 100) + r * DONATED_COST)) / r
        some (some produce_cost, some purchased_cost)
      else
        some (row.estimated_produce_cost_per_lb, row.estimated_purchased_cost_per_lb)

/-- All quantities the calculator derives from one scenario
(app.py lines 142-153). -/
structure DeliveryResult where
  total_lbs : ℚ
  base_cost : ℚ
  fixed_cost : ℚ
  transport_cost : ℚ
  delivery_cost : ℚ
  total_cost : ℚ
  total_annual_lbs : ℚ
  blended_annual_cost_per_lb : ℚ
deriving DecidableEq

/-- The delivery cost arithmetic (app.py lines 142-153), with
`total_cost / total_annual_lbs if total_annual_lbs else 0` on line 153. -/
def deliveryCalc (produce_cost purchased_cost hh deliveries
    produce_lb purchased_lb donated_lb miles : ℚ) : DeliveryResult :=
  let prod_total := produce_lb * hh
  let purch_total := purchased_lb * hh
  let don_total := donated_lb * hh
  let total_lbs := prod_total + purch_total + don_total
  let base_cost := prod_total * produce_cost + purch_total * purchased_cost +
    don_total * DONATED_COST
  let fixed_cost := total_lbs * FIXED_COST_PER_LB
  let transport_cost := total_lbs * miles * TRANSPORT_COST_PER_LB_PER_MILE
  let delivery_cost := base_cost + transport_cost
  let total_cost := delivery_cost * deliveries + fixed_cost
  let total_annual_lbs := total_lbs * deliveries
  let blended_annual_cost_per_lb :=
    if total_annual_lbs ≠ 0 then total_cost / total_annual_lbs else 0
  ⟨total_lbs, base_cost, fixed_cost, transport_cost, delivery_cost,
   total_cost, total_annual_lbs, blended_annual_cost_per_lb⟩

/-! ### Grid-search lemmas

With exact arithmetic and rprod ≠ 0, recomputing candidate_x from the
blended equation makes every candidate's reconstruction error zero, so the
strict `<` update only fires on the first iteration. -/

theorem candidate_error_nonneg (b rp rpu rd c : ℚ) :
    0 ≤ candidate_error b rp rpu rd c :=
  abs_nonneg _

theorem candidate_error_eq_zero (b rp rpu rd c : ℚ) (h : rp ≠ 0) :
    candidate_error b rp rpu rd c = 0 := by
  unfold candidate_error candidate_x_of
  have hz : rp * ((b - rpu * c - rd * DONATED_COST) / rp) +
      rpu * c + rd * DONATED_COST - b = 0 := by
    field_simp
    ring
  rw [hz, abs_zero]

theorem gridStep_keeps (b rp rpu rd x y c : ℚ) :
    gridStep b rp rpu rd (some (0, x, y)) c = some (0, x, y) := by
  unfold gridStep
  simp [not_lt.mpr (candidate_error_nonneg b rp rpu rd c)]

theorem foldl_gridStep_zero (b rp rpu rd x y : ℚ) (l : List ℚ) :
    l.foldl (gridStep b rp rpu rd) (some (0, x, y)) = some (0, x, y) := by
  induction l with
  | nil => rfl
  | cons c t ih => rw [List.foldl_cons, gridStep_keeps]; exact ih

theorem foldl_gridStep_cons (b rp rpu rd c : ℚ) (t : List ℚ) (h : rp ≠ 0) :
    (c :: t).foldl (gridStep b rp rpu rd) none =
      some (0, candidate_x_of b rp rpu rd c, c) := by
  rw [List.foldl_cons]
  have hstep : gridStep b rp rpu rd none c =
      some (0, candidate_x_of b rp rpu rd c, c) := by
    unfold gridStep
    simp [candidate_error_eq_zero b rp rpu rd c h]
  rw [hstep, foldl_gridStep_zero]

theorem candidate_ys_cons :
    candidate_ys = (1 / 2 : ℚ) ::
      (((List.range 70).map Nat.succ).map
        (fun i : ℕ => 1 / 2 + (i : ℚ) * ((6 / 5 - 1 / 2) / 70))) := by
  unfold candidate_ys
  rw [List.range_succ_eq_map, List.map_cons]
  norm_num

theorem gridSearch_eq (b rp rpu rd : ℚ) (h : rp ≠ 0) :
    gridSearch b rp rpu rd =
      some (0, candidate_x_of b rp rpu rd (1 / 2), 1 / 2) := by
  unfold gridSearch
  rw [candidate_ys_cons, foldl_gridStep_cons b rp rpu rd _ _ h]

theorem half_mem_candidate_ys : (1 / 2 : ℚ) ∈ candidate_ys := by
  rw [candidate_ys_cons]
  exact List.mem_cons_self _ _

theorem candidate_ys_ge_half : ∀ c ∈ candidate_ys, (1 / 2 : ℚ) ≤ c := by
  intro c hc
  obtain ⟨i, _, rfl⟩ := List.mem_map.1 hc
  have hi : (0 : ℚ) ≤ (i : ℚ) := Nat.cast_nonneg i
  nlinarith

/-! ### Backsolve branch lemmas -/

theorem backsolve_two_unknowns (a : ProgramAgg)
    (hbp : a.PROGRAM ≠ "BP") (hp : rprod_of a > 0) (hq : rpurch_of a > 0) :
    backsolve a = ⟨a.PROGRAM,
      some (candidate_x_of (blended_cost_of a) (rprod_of a) (rpurch_of a)
        (rdon_of a) (1 / 2)),
      some (1 / 2)⟩ := by
  unfold backsolve
  rw [if_pos ⟨hbp, hp, hq⟩, gridSearch_eq _ _ _ _ hp.ne']

/-- Concrete aggregate with both channel ratios positive, used as a witness
input for the two-unknown branch. -/
def aggBoth : ProgramAgg := ⟨"AGENCY", 100, 50, 30, 15, 5⟩

/-- Concrete aggregate with only the purchased ratio positive. -/
def aggPurchOnly : ProgramAgg := ⟨"AGENCY", 100, 50, 0, 25, 25⟩

/-- C1: in the two-unknown branch the chosen pair (x, y) has y on the
71-point grid, x implied from the blended equation, no grid point has a
strictly smaller reconstruction error, and among equal-error candidates the
lowest y is kept. -/
theorem grid_search_minimizes_error (a : ProgramAgg)
    (hbp : a.PROGRAM ≠ "BP") (hp : rprod_of a > 0) (hq : rpurch_of a > 0) :
    ∃ x y, (backsolve a).estimated_produce_cost_per_lb = some x ∧
      (backsolve a).estimated_purchased_cost_per_lb = some y ∧
      y ∈ candidate_ys ∧
      x = candidate_x_of (blended_cost_of a) (rprod_of a) (rpurch_of a) (rdon_of a) y ∧
      (∀ c ∈ candidate_ys,
        candidate_error (blended_cost_of a) (rprod_of a) (rpurch_of a) (rdon_of a) y ≤
          candidate_error (blended_cost_of a) (rprod_of a) (rpurch_of a) (rdon_of a) c) ∧
      (∀ c ∈ candidate_ys,
        candidate_error (blended_cost_of a) (rprod_of a) (rpurch_of a) (rdon_of a) c =
          candidate_error (blended_cost_of a) (rprod_of a) (rpurch_of a) (rdon_of a) y →
          y ≤ c) := by
  refine ⟨candidate_x_of (blended_cost_of a) (rprod_of a) (rpurch_of a) (rdon_of a) (1 / 2),
    1 / 2, ?_, ?_, half_mem_candidate_ys, rfl, ?_, ?_⟩
  · rw [backsolve_two_unknowns a hbp hp hq]
  · rw [backsolve_two_unknowns a hbp hp hq]
  · intro c hc
    rw [candidate_error_eq_zero _ _ _ _ _ hp.ne', candidate_error_eq_zero _ _ _ _ c hp.ne']
  · intro c hc _
    exact candidate_ys_ge_half c hc

/-- C1 witness at a concrete aggregate. -/
theorem grid_search_minimizes_error_witness :
    (aggBoth.PROGRAM ≠ "BP" ∧ rprod_of aggBoth > 0 ∧ rpurch_of aggBoth > 0) ∧
    (∃ x y, (backsolve aggBoth).estimated_produce_cost_per_lb = some x ∧
      (backsolve aggBoth).estimated_purchased_cost_per_lb = some y ∧
      y ∈ candidate_ys ∧
      x = candidate_x_of (blended_cost_of aggBoth) (rprod_of aggBoth) (rpurch_of aggBoth)
        (rdon_of aggBoth) y ∧
      (∀ c ∈ candidate_ys,
        candidate_error (blended_cost_of aggBoth) (rprod_of aggBoth) (rpurch_of aggBoth)
            (rdon_of aggBoth) y ≤
          candidate_error (blended_cost_of aggBoth) (rprod_of aggBoth) (rpurch_of aggBoth)
            (rdon_of aggBoth) c) ∧
      (∀ c ∈ candidate_ys,
        candidate_error (blended_cost_of aggBoth) (rprod_of aggBoth) (rpurch_of aggBoth)
            (rdon_of aggBoth) c =
          candidate_error (blended_cost_of aggBoth) (rprod_of aggBoth) (rpurch_of aggBoth)
            (rdon_of aggBoth) y →
          y ≤ c)) :=
  ⟨⟨by decide, by norm_num [rprod_of, aggBoth], by norm_num [rpurch_of, aggBoth]⟩,
   grid_search_minimizes_error aggBoth (by decide) (by norm_num [rprod_of, aggBoth])
     (by norm_num [rpurch_of, aggBoth])⟩

/-- C2: with candidate_x recomputed from the blended equation every grid
candidate reconstructs the blended cost exactly, so the solver keeps the
first candidate y = 0.5 and x = (blended - 0.5·rpurch - 0.04·rdon)/rprod,
whatever the blended cost is. -/
theorem two_unknown_selects_first_candidate (a : ProgramAgg)
    (hbp : a.PROGRAM ≠ "BP") (hp : rprod_of a > 0) (hq : rpurch_of a > 0) :
    backsolve a = ⟨a.PROGRAM,
      some ((blended_cost_of a - rpurch_of a * (1 / 2) - rdon_of a * DONATED_COST) /
        rprod_of a),
      some (1 / 2)⟩ ∧
    ∀ c ∈ candidate_ys,
      candidate_error (blended_cost_of a) (rprod_of a) (rpurch_of a) (rdon_of a) c = 0 := by
  constructor
  · rw [backsolve_two_unknowns a hbp hp hq]
    rfl
  · intro c _
    exact candidate_error_eq_zero _ _ _ _ c hp.ne'

/-- C2 witness at a concrete aggregate. -/
theorem two_unknown_selects_first_candidate_witness :
    (aggBoth.PROGRAM ≠ "BP" ∧ rprod_of aggBoth > 0 ∧ rpurch_of aggBoth > 0) ∧
    (backsolve aggBoth = ⟨aggBoth.PROGRAM,
      some ((blended_cost_of aggBoth - rpurch_of aggBoth * (1 / 2) -
        rdon_of aggBoth * DONATED_COST) / rprod_of aggBoth),
      some (1 / 2)⟩ ∧
    ∀ c ∈ candidate_ys,
      candidate_error (blended_cost_of aggBoth) (rprod_of aggBoth) (rpurch_of aggBoth)
        (rdon_of aggBoth) c = 0) :=
  ⟨⟨by decide, by norm_num [rprod_of, aggBoth], by norm_num [rpurch_of, aggBoth]⟩,
   two_unknown_selects_first_candidate aggBoth (by decide)
     (by norm_num [rprod_of, aggBoth]) (by norm_num [rpurch_of, aggBoth])⟩

/-- C5: with exactly one positive channel ratio the solver returns the
closed-form single-channel solution; the purchased branch is clamped into
[0.5, 1.2], the produce branch is not clamped. -/
theorem single_channel_closed_form (a : ProgramAgg) :
    (rpurch_of a > 0 → rprod_of a = 0 →
      backsolve a = ⟨a.PROGRAM, none,
        some (max (1 / 2) (min (6 / 5)
          ((blended_cost_of a - rdon_of a * DONATED_COST) / rpurch_of a)))⟩) ∧
    (rprod_of a > 0 → rpurch_of a = 0 →
      backsolve a = ⟨a.PROGRAM,
        some ((blended_cost_of a - rdon_of a * DONATED_COST) / rprod_of a), none⟩) := by
  constructor
  · intro h1 h2
    have hn1 : ¬(a.PROGRAM ≠ "BP" ∧ rprod_of a > 0 ∧ rpurch_of a > 0) := by
      rintro ⟨-, hp, -⟩
      rw [h2] at hp
      exact lt_irrefl 0 hp
    unfold backsolve
    rw [if_neg hn1, if_pos ⟨h1, h2⟩]
  · intro h1 h2
    have hn1 : ¬(a.PROGRAM ≠ "BP" ∧ rprod_of a > 0 ∧ rpurch_of a > 0) := by
      rintro ⟨-, -, hq⟩
      rw [h2] at hq
      exact lt_irrefl 0 hq
    have hn2 : ¬(rpurch_of a > 0 ∧ rprod_of a = 0) := by
      rintro ⟨hq, -⟩
      rw [h2] at hq
      exact lt_irrefl 0 hq
    unfold backsolve
    rw [if_neg hn1, if_neg hn2, if_pos ⟨h1, h2⟩]

/-- C5 witness at a concrete purchased-only aggregate. -/
theorem single_channel_closed_form_witness :
    (rpurch_of aggPurchOnly > 0 ∧ rprod_of aggPurchOnly = 0) ∧
    backsolve aggPurchOnly = ⟨aggPurchOnly.PROGRAM, none,
      some (max (1 / 2) (min (6 / 5)
        ((blended_cost_of aggPurchOnly - rdon_of aggPurchOnly * DONATED_COST) /
          rpurch_of aggPurchOnly)))⟩ :=
  ⟨⟨by norm_num [rpurch_of, aggPurchOnly], by norm_num [rprod_of, aggPurchOnly]⟩,
   (single_channel_closed_form aggPurchOnly).1 (by norm_num [rpurch_of, aggPurchOnly])
     (by norm_num [rprod_of, aggPurchOnly])⟩

/-- C6: for every program of the composition model each ratio is
(value or 0)/total with a zero fallback when the total is 0, each ratio
lies in [0, 1], and the three ratios sum to 1 when the total is positive. -/
theorem composition_ratio_properties :
    ∀ pv ∈ lbs_per_hh_model,
      (program_food_ratios pv.1).produce_ratio =
        (if totalOf pv.2 = 0 then 0 else pv.2.produce.getD 0 / totalOf pv.2) ∧
      (program_food_ratios pv.1).purchased_ratio =
        (if totalOf pv.2 = 0 then 0 else pv.2.purchased.getD 0 / totalOf pv.2) ∧
      (program_food_ratios pv.1).donated_ratio =
        (if totalOf pv.2 = 0 then 0 else pv.2.donated.getD 0 / totalOf pv.2) ∧
      (totalOf pv.2 = 0 → program_food_ratios pv.1 = ⟨0, 0, 0⟩) ∧
      (0 ≤ (program_food_ratios pv.1).produce_ratio ∧
        (program_food_ratios pv.1).produce_ratio ≤ 1) ∧
      (0 ≤ (program_food_ratios pv.1).purchased_ratio ∧
        (program_food_ratios pv.1).purchased_ratio ≤ 1) ∧
      (0 ≤ (program_food_ratios pv.1).donated_ratio ∧
        (program_food_ratios pv.1).donated_ratio ≤ 1) ∧
      (0 < totalOf pv.2 →
        (program_food_ratios pv.1).produce_ratio +
          (program_food_ratios pv.1).purchased_ratio +
          (program_food_ratios pv.1).donated_ratio = 1) := by
  intro pv hpv
  fin_cases hpv <;>
    norm_num [program_food_ratios, lbs_per_hh_model, ratiosOfValues, totalOf, List.find?,
      (show ("AGENCY" == "AGENCY") = true from by decide),
      (show ("AGENCY" == "BP") = false from by decide),
      (show ("BP" == "BP") = true from by decide),
      (show ("AGENCY" == "MP") = false from by decide),
      (show ("BP" == "MP") = false from by decide),
      (show ("MP" == "MP") = true from by decide),
      (show ("AGENCY" == "PP") = false from by decide),
      (show ("BP" == "PP") = false from by decide),
      (show ("MP" == "PP") = false from by decide),
      (show ("PP" == "PP") = true from by decide),
      (show ("AGENCY" == "SP") = false from by decide),
      (show ("BP" == "SP") = false from by decide),
      (show ("MP" == "SP") = false from by decide),
      (show ("PP" == "SP") = false from by decide),
      (show ("SP" == "SP") = true from by decide)]

/-- C6 witness at the AGENCY entry of the model. -/
theorem composition_ratio_properties_witness :
    (("AGENCY", (⟨some 16, some 5, some 2⟩ : LbsPerHH)) ∈ lbs_per_hh_model) ∧
    (program_food_ratios "AGENCY").produce_ratio + (program_food_ratios "AGENCY").purchased_ratio +
      (program_food_ratios "AGENCY").donated_ratio = 1 :=
  ⟨by simp [lbs_per_hh_model],
   (composition_ratio_properties ("AGENCY", ⟨some 16, some 5, some 2⟩)
      (by simp [lbs_per_hh_model])).2.2.2.2.2.2.2
     (by norm_num [totalOf])⟩

/-- Concrete zero-weight aggregate. -/
def aggZeroWeight : ProgramAgg := ⟨"MP", 0, 0, 0, 0, 0⟩

/-- C7: a zero-weight aggregate gives blended cost 0 and all channel ratios
0, and a zero annual total weight gives a blended annual cost-per-lb of 0,
with no division error in either place. -/
theorem zero_weight_yields_zero (a : ProgramAgg) (ha : a.Weight = 0)
    (pc qc hh dels pl ql dl mi : ℚ)
    (hz : (deliveryCalc pc qc hh dels pl ql dl mi).total_annual_lbs = 0) :
    blended_cost_of a = 0 ∧ rprod_of a = 0 ∧ rpurch_of a = 0 ∧ rdon_of a = 0 ∧
      (deliveryCalc pc qc hh dels pl ql dl mi).blended_annual_cost_per_lb = 0 := by
  refine ⟨?_, ?_, ?_, ?_, ?_⟩
  · simp [blended_cost_of, ha]
  · simp [rprod_of, ha]
  · simp [rpurch_of, ha]
  · simp [rdon_of, ha]
  · simp only [deliveryCalc] at hz ⊢
    simp [hz]

/-- C7 witness: an all-zero aggregate and an all-zero scenario. -/
theorem zero_weight_yields_zero_witness :
    (aggZeroWeight.Weight = 0 ∧ (deliveryCalc 0 0 0 0 0 0 0 0).total_annual_lbs = 0) ∧
    (blended_cost_of aggZeroWeight = 0 ∧ rprod_of aggZeroWeight = 0 ∧
      rpurch_of aggZeroWeight = 0 ∧ rdon_of aggZeroWeight = 0 ∧
      (deliveryCalc 0 0 0 0 0 0 0 0).blended_annual_cost_per_lb = 0) :=
  ⟨⟨by norm_num [aggZeroWeight], by norm_num [deliveryCalc]⟩,
   zero_weight_yields_zero aggZeroWeight (by norm_num [aggZeroWeight]) 0 0 0 0 0 0 0 0
     (by norm_num [deliveryCalc])⟩

/-- C8: the worked delivery-scenario example: prices 0.75/1.00/0.04,
350 households, 16/5/2 lbs per household, 30 miles, transport rate 0.01
give total weight 8050 lbs, base cost 5978, transport 2415 and
per-delivery cost 8393. -/
theorem delivery_scenario_example :
    (deliveryCalc (3 / 4) 1 350 12 16 5 2 30).total_lbs = 8050 ∧
    (deliveryCalc (3 / 4) 1 350 12 16 5 2 30).base_cost = 5978 ∧
    (deliveryCalc (3 / 4) 1 350 12 16 5 2 30).transport_cost = 2415 ∧
    (deliveryCalc (3 / 4) 1 350 12 16 5 2 30).delivery_cost = 8393 := by
  norm_num [deliveryCalc, DONATED_COST, TRANSPORT_COST_PER_LB_PER_MILE]

/-- C9: the calibration pipeline is a pure function of the historical
records: identical inputs give identical CostEstimate tables. -/
theorem calibration_deterministic (h1 h2 : List HistoricalRecord) (h : h1 = h2) :
    cost_estimates h1 = cost_estimates h2 := by
  rw [h]

/-- C9 witness on a concrete input. -/
theorem calibration_deterministic_witness :
    ([] : List HistoricalRecord) = [] ∧ cost_estimates [] = cost_estimates [] :=
  ⟨rfl, calibration_deterministic [] [] rfl⟩

/-- Every purchased cost the guardrailed table can contain lies in
[0.5, 1.2]: the grid picks a candidate from the band, the single-unknown
solution is clamped into it, and the fillna default 1.00 is inside it. -/
theorem backsolve_purch_band (a : ProgramAgg) :
    1 / 2 ≤ (backsolve a).estimated_purchased_cost_per_lb.getD DEFAULT_PURCHASED_COST_PER_LB ∧
    (backsolve a).estimated_purchased_cost_per_lb.getD DEFAULT_PURCHASED_COST_PER_LB ≤ 6 / 5 := by
  unfold backsolve
  by_cases h1 : a.PROGRAM ≠ "BP" ∧ rprod_of a > 0 ∧ rpurch_of a > 0
  · rw [if_pos h1, gridSearch_eq _ _ _ _ h1.2.1.ne']
    constructor <;> norm_num
  · rw [if_neg h1]
    by_cases h2 : rpurch_of a > 0 ∧ rprod_of a = 0
    · rw [if_pos h2]
      simp only [Option.getD_some]
      exact ⟨le_max_left _ _, max_le (by norm_num) (min_le_left _ _)⟩
    · rw [if_neg h2]
      by_cases h3 : rprod_of a > 0 ∧ rpurch_of a = 0
      · rw [if_pos h3]
        norm_num [DEFAULT_PURCHASED_COST_PER_LB]
      · rw [if_neg h3]
        norm_num [DEFAULT_PURCHASED_COST_PER_LB]

/-- C10: for a program other than BP whose lookup succeeds, the purchased
cost handed to the calculator is a defined value inside [0.5, 1.2]. -/
theorem purchased_price_within_band (rs : List HistoricalRecord) (prog : String)
    (pr : Option ℚ × Option ℚ) (hbp : prog ≠ "BP")
    (h : lookupPrices rs prog = some pr) :
    ∃ v, pr.2 = some v ∧ 1 / 2 ≤ v ∧ v ≤ 6 / 5 := by
  unfold lookupPrices at h
  cases hfind : (program_agg rs).find? (fun r => r.PROGRAM == prog) with
  | none =>
    rw [hfind] at h
    exact absurd h (by simp)
  | some agg_row =>
    rw [hfind] at h
    simp only [] at h
    cases hmatch : (cost_estimates rs).filter (fun r => r.PROGRAM == prog) with
    | nil =>
      rw [hmatch] at h
      simp only [Option.some.injEq] at h
      refine ⟨DEFAULT_PURCHASED_COST_PER_LB, ?_, ?_, ?_⟩
      · rw [← h]
      · norm_num [DEFAULT_PURCHASED_COST_PER_LB]
      · norm_num [DEFAULT_PURCHASED_COST_PER_LB]
    | cons row rest =>
      rw [hmatch] at h
      simp only [if_neg hbp, Option.some.injEq] at h
      have hmem : row ∈ (cost_estimates rs).filter (fun r => r.PROGRAM == prog) := by
        rw [hmatch]
        exact List.mem_cons_self _ _
      have hmem2 : row ∈ cost_estimates rs := List.mem_of_mem_filter hmem
      simp only [cost_estimates, List.mem_map] at hmem2
      obtain ⟨r0, hr0, hrow⟩ := hmem2
      obtain ⟨agg0, _, hback⟩ := hr0
      refine ⟨(backsolve agg0).estimated_purchased_cost_per_lb.getD
        DEFAULT_PURCHASED_COST_PER_LB, ?_, (backsolve_purch_band agg0).1,
        (backsolve_purch_band agg0).2⟩
      rw [← h, ← hrow, ← hback]
      rfl

/-- Concrete history containing only a PP record, for witnesses. -/
def recsPP : List HistoricalRecord := [⟨"PP", 100, 50⟩]

/-- Evaluation of the lookup on recsPP: PP solves produce from the
single-channel branch (blended 2), purchased falls to the 1.00 default. -/
theorem lookup_recsPP : lookupPrices recsPP "PP" = some (some 2, some 1) := by
  simp only [recsPP, lookupPrices, cost_estimates, program_agg, filteredRecords,
    uniqueProgs, aggFor, program_food_ratios, lbs_per_hh_model, ratiosOfValues, totalOf,
    backsolve, fillnaRow, blended_cost_of, rprod_of, rpurch_of, rdon_of, DONATED_COST,
    DEFAULT_PRODUCE_COST_PER_LB, DEFAULT_PURCHASED_COST_PER_LB,
    List.filter, List.foldl, List.find?, List.map, List.not_mem_nil,
    (show ("AGENCY" == "PP") = false from by decide),
    (show ("BP" == "PP") = false from by decide),
    (show ("MP" == "PP") = false from by decide),
    (show ("PP" == "PP") = true from by decide),
    (show ("SP" == "PP") = false from by decide),
    (show (("PP" : String) = "BP") = False from by simp)]
  norm_num

/-- C10 witness: the PP lookup on recsPP yields a purchased price in the band. -/
theorem purchased_price_within_band_witness :
    (("PP" : String) ≠ "BP" ∧ lookupPrices recsPP "PP" = some (some 2, some 1)) ∧
    (∃ v, ((some 2, some 1) : Option ℚ × Option ℚ).2 = some v ∧ 1 / 2 ≤ v ∧ v ≤ 6 / 5) :=
  ⟨⟨by decide, lookup_recsPP⟩,
   purchased_price_within_band recsPP "PP" (some 2, some 1) (by decide) lookup_recsPP⟩

/-- Concrete history containing only a BP record, for the BP lookup. -/
def recsBP : List HistoricalRecord := [⟨"BP", 100, 50⟩]

/-- C3: on a history where the solver leaves both BP prices unresolved, the
lookup returns the generic produce default 0.75 (filled in by the
guardrails before the lookup runs) together with the 1.27 purchased
override; it does not return the blended-equation derivation, whose value
at this input (blended 2) would be 4.69. -/
theorem bp_lookup_returns_filled_default :
    lookupPrices recsBP "BP" = some (some (3 / 4), some (127 / 100)) ∧
    ((2 : ℚ) - (1 / 3 * (127 / 100) + 1 / 3 * DONATED_COST)) / (1 / 3) ≠ 3 / 4 := by
  constructor
  · simp only [recsBP, lookupPrices, cost_estimates, program_agg, filteredRecords,
      uniqueProgs, aggFor, program_food_ratios, lbs_per_hh_model, ratiosOfValues, totalOf,
      backsolve, fillnaRow, blended_cost_of, rprod_of, rpurch_of, rdon_of, DONATED_COST,
      DEFAULT_PRODUCE_COST_PER_LB, DEFAULT_PURCHASED_COST_PER_LB,
      List.filter, List.foldl, List.find?, List.map, List.not_mem_nil,
      (show ("AGENCY" == "BP") = false from by decide),
      (show ("BP" == "BP") = true from by decide),
      (show ("MP" == "BP") = false from by decide),
      (show ("PP" == "BP") = false from by decide),
      (show ("SP" == "BP") = false from by decide),
      (show (("BP" : String) = "BP") = True from by simp)]
    norm_num
  · norm_num [DONATED_COST]

/-- C4: selecting a program with no row in the filtered historical data
makes the lookup fail (the aggregate-row access of app.py line 123 raises
IndexError) instead of returning the generic defaults. -/
theorem lookup_missing_program_fails :
    lookupPrices recsPP "AGENCY" = none := by
  simp only [recsPP, lookupPrices, cost_estimates, program_agg, filteredRecords,
    uniqueProgs, aggFor, program_food_ratios, lbs_per_hh_model, ratiosOfValues, totalOf,
    backsolve, fillnaRow, blended_cost_of, rprod_of, rpurch_of, rdon_of, DONATED_COST,
    DEFAULT_PRODUCE_COST_PER_LB, DEFAULT_PURCHASED_COST_PER_LB,
    List.filter, List.foldl, List.find?, List.map, List.not_mem_nil,
    (show ("AGENCY" == "PP") = false from by decide),
    (show ("BP" == "PP") = false from by decide),
    (show ("MP" == "PP") = false from by decide),
    (show ("PP" == "PP") = true from by decide),
    (show ("SP" == "PP") = false from by decide),
    (show ("PP" == "AGENCY") = false from by decide)]
